import Mathlib

/-!
Shallow embedding of druid's scrollable-viewport core:
`src/druid/src/scroll_component.rs` (the embeddable `ScrollComponent`) and
`src/druid/src/widget/scroll.rs` (the `Scroll` container widget).

Numeric model: `f64` scalars are embedded as `ℚ` with exact arithmetic;
`f64::ceil` is the mathematical ceiling; `f64::min`/`f64::max` are
`min`/`max` on `ℚ`.  Host-side effects (repaint requests, animation-frame
requests, timer arming, pointer capture, the handled flag) are embedded as
an explicit context record `Ctx` threaded through the functions; an opaque
`TimerToken` is a natural number issued by a monotone counter, with `0` as
the `TimerToken::INVALID` sentinel so that freshly issued tokens are never
the sentinel.  Painting and the child widget are external collaborators:
the child dispatch inside `Scroll::event` is an abstract transformation of
the context, and `Scroll::layout` takes the child's measured size as an
input.
-/

namespace Druid

/-- Ceiling on `ℚ`, returned as a `ℚ` again; embeds `f64::ceil`. -/
def ratCeil (q : ℚ) : ℚ := (⌈q⌉ : ℤ)

/-- kurbo `Vec2`. -/
structure Vec2 where
  x : ℚ
  y : ℚ
deriving DecidableEq, Repr

instance : Add Vec2 := ⟨fun a b => ⟨a.x + b.x, a.y + b.y⟩⟩

instance : Sub Vec2 := ⟨fun a b => ⟨a.x - b.x, a.y - b.y⟩⟩

/-- kurbo `Vec2::hypot2`: squared length. -/
def Vec2.hypot2 (v : Vec2) : ℚ := v.x * v.x + v.y * v.y

/-- kurbo `Size`. -/
structure Size where
  width : ℚ
  height : ℚ
deriving DecidableEq, Repr

instance : Sub Size := ⟨fun a b => ⟨a.width - b.width, a.height - b.height⟩⟩

/-- kurbo `Point`. -/
structure Point where
  x : ℚ
  y : ℚ
deriving DecidableEq, Repr

/-- Embeds `Point + Vec2` as used for `e.pos + self.scroll_offset`. -/
instance : HAdd Point Vec2 Point := ⟨fun p v => ⟨p.x + v.x, p.y + v.y⟩⟩

/-- kurbo `Rect`. -/
structure Rect where
  x0 : ℚ
  y0 : ℚ
  x1 : ℚ
  y1 : ℚ
deriving DecidableEq, Repr

def Rect.width (r : Rect) : ℚ := r.x1 - r.x0

def Rect.height (r : Rect) : ℚ := r.y1 - r.y0

/-- kurbo `Rect::contains`: half-open on the far edges. -/
def Rect.contains (r : Rect) (p : Point) : Bool :=
  decide (r.x0 ≤ p.x ∧ p.x < r.x1 ∧ r.y0 ≤ p.y ∧ p.y < r.y1)

/-- Embeds `Rect::from_origin_size(Point::ORIGIN, size)`. -/
def Rect.from_origin_size (size : Size) : Rect :=
  ⟨0, 0, size.width, size.height⟩

/-- druid `BoxConstraints`. -/
structure BoxConstraints where
  min : Size
  max : Size
deriving DecidableEq, Repr

/-- Embeds `BoxConstraints::constrain`: clamp a size into `[min, max]`
(per axis: `v.max(min).min(max)`). -/
def BoxConstraints.constrain (bc : BoxConstraints) (size : Size) : Size :=
  ⟨Min.min (Max.max size.width bc.min.width) bc.max.width,
   Min.min (Max.max size.height bc.min.height) bc.max.height⟩

/-- The theme/`Env` values this core reads (paint-only colors omitted). -/
structure Env where
  scrollbar_width : ℚ
  scrollbar_pad : ℚ
  scrollbar_max_opacity : ℚ
  scrollbar_fade_delay : ℚ
deriving DecidableEq, Repr

/-- druid `TimerToken`, an opaque equality-comparable handle. -/
abbrev TimerToken := ℕ

/-- Embeds `TimerToken::INVALID`. -/
def TimerToken.INVALID : TimerToken := 0

/-- Embeds `MouseEvent`: only the position field is read by this core. -/
structure MouseEvent where
  pos : Point
deriving DecidableEq, Repr

/-- The events this core inspects; every other event is `Other`. -/
inductive Event where
  | MouseMove (e : MouseEvent)
  | MouseDown (e : MouseEvent)
  | MouseUp (e : MouseEvent)
  | Wheel (delta : Vec2)
  | Timer (id : TimerToken)
  | SizeChanged (s : Size)
  | Other
deriving DecidableEq, Repr

def Event.isMouseMove : Event → Bool
  | .MouseMove _ => true
  | _ => false

def Event.isMouseUp : Event → Bool
  | .MouseUp _ => true
  | _ => false

def Event.isWheel : Event → Bool
  | .Wheel _ => true
  | _ => false

/-- The lifecycle notifications this core inspects. -/
inductive LifeCycle where
  | AnimFrame (interval : ℕ)
  | SizeChanged (s : Size)
  | Other
deriving DecidableEq, Repr

/-- Host-side context: viewport size plus the observable effects of the
`EventCtx`/`LifeCycleCtx` callbacks the code invokes. -/
structure Ctx where
  size : Size
  handled : Bool
  paint_count : ℕ
  anim_frame_count : ℕ
  active : Bool
  next_timer : ℕ
deriving DecidableEq, Repr

def Ctx.request_paint (ctx : Ctx) : Ctx :=
  { ctx with paint_count := ctx.paint_count + 1 }

def Ctx.set_handled (ctx : Ctx) : Ctx :=
  { ctx with handled := true }

def Ctx.request_anim_frame (ctx : Ctx) : Ctx :=
  { ctx with anim_frame_count := ctx.anim_frame_count + 1 }

def Ctx.set_active (ctx : Ctx) (b : Bool) : Ctx :=
  { ctx with active := b }

/-- Embeds `EventCtx::request_timer`: issues a fresh token (never the invalid
sentinel `0`); the requested duration is opaque to this model. -/
def Ctx.request_timer (ctx : Ctx) (_deadline : ℚ) : TimerToken × Ctx :=
  (ctx.next_timer + 1, { ctx with next_timer := ctx.next_timer + 1 })

/-- Embeds `scroll_component.rs` `SCROLLBAR_MIN_SIZE`. -/
def SCROLLBAR_MIN_SIZE : ℚ := 45

/-- Embeds `scroll_component.rs` `ScrollDirection`. -/
inductive ScrollDirection where
  | Horizontal
  | Vertical
  | All
deriving DecidableEq, Repr

/-- Embeds `BarHoveredState` (identical in both files). -/
inductive BarHoveredState where
  | None
  | Vertical
  | Horizontal
deriving DecidableEq, Repr

/-- Embeds `BarHoveredState::is_hovered`. -/
def BarHoveredState.is_hovered : BarHoveredState → Bool
  | .Vertical | .Horizontal => true
  | _ => false

/-- Embeds `BarHeldState` (identical in both files): the payload is the grab
offset between the pointer and the bar's near edge. -/
inductive BarHeldState where
  | None
  | Vertical (offset : ℚ)
  | Horizontal (offset : ℚ)
deriving DecidableEq, Repr

/-- Embeds `scroll_component.rs` `ScrollbarsState`. -/
structure ScrollbarsState where
  opacity : ℚ
  timer_id : TimerToken
  hovered : BarHoveredState
  held : BarHeldState
deriving DecidableEq, Repr

/-- Embeds `ScrollbarsState::default`. -/
def ScrollbarsState.default : ScrollbarsState :=
  { opacity := 0, timer_id := TimerToken.INVALID,
    hovered := .None, held := .None }

/-- Embeds `ScrollbarsState::are_held`. -/
def ScrollbarsState.are_held (s : ScrollbarsState) : Bool :=
  match s.held with
  | .None => false
  | _ => true

/-- Embeds `scroll_component.rs` `ScrollComponent`. -/
structure ScrollComponent where
  content_size : Size
  scroll_offset : Vec2
  direction : ScrollDirection
  scrollbars : ScrollbarsState
deriving DecidableEq, Repr

/-- Embeds `ScrollComponent::new`. -/
def ScrollComponent.new : ScrollComponent :=
  { content_size := ⟨0, 0⟩, scroll_offset := ⟨0, 0⟩,
    direction := .All, scrollbars := ScrollbarsState.default }

/-- The clamped candidate offset computed inside `ScrollComponent::scroll`:
add the delta, then clamp each axis by `.min(content - size).max(0.0)`. -/
def ScrollComponent.clampOffset (c : ScrollComponent) (delta : Vec2) (size : Size) : Vec2 :=
  let off := c.scroll_offset + delta
  ⟨max (min off.x (c.content_size.width - size.width)) 0,
   max (min off.y (c.content_size.height - size.height)) 0⟩

/-- Embeds `ScrollComponent::scroll`. -/
def ScrollComponent.scroll (c : ScrollComponent) (delta : Vec2) (size : Size) :
    ScrollComponent × Bool :=
  if (c.clampOffset delta size - c.scroll_offset).hypot2 > 1 / 10 ^ 12 then
    ({ c with scroll_offset := c.clampOffset delta size }, true)
  else
    (c, false)

/-- Embeds `ScrollComponent::reset_scrollbar_fade`: opacity to the theme maximum and
a fresh fade timer armed (the `request_timer` closure is the context). -/
def ScrollComponent.reset_scrollbar_fade (c : ScrollComponent) (ctx : Ctx) (env : Env) :
    ScrollComponent × Ctx :=
  ({ c with scrollbars := { c.scrollbars with
      opacity := env.scrollbar_max_opacity,
      timer_id := (ctx.request_timer env.scrollbar_fade_delay).1 } },
   (ctx.request_timer env.scrollbar_fade_delay).2)

/-- Embeds `ScrollComponent::calc_vertical_bar_bounds`. -/
def ScrollComponent.calc_vertical_bar_bounds (c : ScrollComponent) (viewport : Rect)
    (env : Env) : Rect :=
  let bar_width := env.scrollbar_width
  let bar_pad := env.scrollbar_pad
  let percent_visible := viewport.height / c.content_size.height
  let percent_scrolled := c.scroll_offset.y / (c.content_size.height - viewport.height)
  let length := ratCeil (percent_visible * viewport.height)
  let length := max length SCROLLBAR_MIN_SIZE
  let vertical_padding := bar_pad + bar_pad + bar_width
  let top_y_offset := ratCeil ((viewport.height - length - vertical_padding) * percent_scrolled)
  let bottom_y_offset := top_y_offset + length
  let x0 := c.scroll_offset.x + viewport.width - bar_width - bar_pad
  let y0 := c.scroll_offset.y + top_y_offset + bar_pad
  let x1 := c.scroll_offset.x + viewport.width - bar_pad
  let y1 := c.scroll_offset.y + bottom_y_offset
  ⟨x0, y0, x1, y1⟩

/-- Embeds `ScrollComponent::calc_horizontal_bar_bounds`. -/
def ScrollComponent.calc_horizontal_bar_bounds (c : ScrollComponent) (viewport : Rect)
    (env : Env) : Rect :=
  let bar_width := env.scrollbar_width
  let bar_pad := env.scrollbar_pad
  let percent_visible := viewport.width / c.content_size.width
  let percent_scrolled := c.scroll_offset.x / (c.content_size.width - viewport.width)
  let length := ratCeil (percent_visible * viewport.width)
  let length := max length SCROLLBAR_MIN_SIZE
  let horizontal_padding := bar_pad + bar_pad + bar_width
  let left_x_offset := ratCeil ((viewport.width - length - horizontal_padding) * percent_scrolled)
  let right_x_offset := left_x_offset + length
  let x0 := c.scroll_offset.x + left_x_offset + bar_pad
  let y0 := c.scroll_offset.y + viewport.height - bar_width - bar_pad
  let x1 := c.scroll_offset.x + right_x_offset
  let y1 := c.scroll_offset.y + viewport.height - bar_pad
  ⟨x0, y0, x1, y1⟩

/-- The early-out guard of `ScrollComponent::draw_bars`: nothing is drawn
when the opacity is not strictly positive. -/
def ScrollComponent.draw_bars_skips (c : ScrollComponent) : Bool :=
  decide (c.scrollbars.opacity ≤ 0)

/-- Embeds `ScrollComponent::point_hits_vertical_bar`. -/
def ScrollComponent.point_hits_vertical_bar (c : ScrollComponent) (viewport : Rect)
    (pos : Point) (env : Env) : Bool :=
  if viewport.height < c.content_size.height then
    let bounds := c.calc_vertical_bar_bounds viewport env
    let bounds := { bounds with x1 := c.scroll_offset.x + viewport.width }
    bounds.contains pos
  else
    false

/-- Embeds `ScrollComponent::point_hits_horizontal_bar`. -/
def ScrollComponent.point_hits_horizontal_bar (c : ScrollComponent) (viewport : Rect)
    (pos : Point) (env : Env) : Bool :=
  if viewport.width < c.content_size.width then
    let bounds := c.calc_horizontal_bar_bounds viewport env
    let bounds := { bounds with y1 := c.scroll_offset.y + viewport.height }
    bounds.contains pos
  else
    false

/-- Embeds `ScrollComponent::filter_event`.  Result `none` is the `unreachable!()`
panic branch; `some (c, ctx, consumed)` is a normal return. -/
def ScrollComponent.filter_event (c : ScrollComponent) (ctx : Ctx) (event : Event)
    (env : Env) : Option (ScrollComponent × Ctx × Bool) :=
  let size := ctx.size
  let viewport := Rect.from_origin_size size
  let scrollbar_is_hovered :=
    match event with
    | .MouseMove e | .MouseUp e | .MouseDown e =>
      let offset_pos := e.pos + c.scroll_offset
      c.point_hits_vertical_bar viewport offset_pos env ||
        c.point_hits_horizontal_bar viewport offset_pos env
    | _ => false
  if c.scrollbars.are_held then
    match event with
    | .MouseMove e =>
      let c1 :=
        match c.scrollbars.held with
        | .Vertical offset =>
          let scale_y := viewport.height / c.content_size.height
          let bounds := c.calc_vertical_bar_bounds viewport env
          let mouse_y := e.pos.y + c.scroll_offset.y
          let delta := mouse_y - bounds.y0 - offset
          (c.scroll ⟨0, ratCeil (delta / scale_y)⟩ size).1
        | .Horizontal offset =>
          let scale_x := viewport.width / c.content_size.width
          let bounds := c.calc_horizontal_bar_bounds viewport env
          let mouse_x := e.pos.x + c.scroll_offset.x
          let delta := mouse_x - bounds.x0 - offset
          (c.scroll ⟨ratCeil (delta / scale_x), 0⟩ size).1
        | .None => c
      some (c1, ctx.request_paint, true)
    | .MouseUp _ =>
      let c1 := { c with scrollbars := { c.scrollbars with held := .None } }
      let ctx1 := ctx.set_active false
      if !scrollbar_is_hovered then
        let c2 := { c1 with scrollbars := { c1.scrollbars with hovered := .None } }
        some ((c2.reset_scrollbar_fade ctx1 env).1, (c2.reset_scrollbar_fade ctx1 env).2, true)
      else
        some (c1, ctx1, true)
    | _ => some (c, ctx, true)
  else if scrollbar_is_hovered then
    match event with
    | .MouseMove e =>
      let offset_pos := e.pos + c.scroll_offset
      let c1 :=
        if c.point_hits_vertical_bar viewport offset_pos env then
          { c with scrollbars := { c.scrollbars with hovered := .Vertical } }
        else
          { c with scrollbars := { c.scrollbars with hovered := .Horizontal } }
      let c2 := { c1 with scrollbars := { c1.scrollbars with
          opacity := env.scrollbar_max_opacity, timer_id := TimerToken.INVALID } }
      some (c2, ctx.request_paint, true)
    | .MouseDown e =>
      let pos := e.pos + c.scroll_offset
      if c.point_hits_vertical_bar viewport pos env then
        let c1 := { c with scrollbars := { c.scrollbars with
            held := .Vertical (pos.y - (c.calc_vertical_bar_bounds viewport env).y0) } }
        some (c1, ctx.set_active true, true)
      else if c.point_hits_horizontal_bar viewport pos env then
        let c1 := { c with scrollbars := { c.scrollbars with
            held := .Horizontal (pos.x - (c.calc_horizontal_bar_bounds viewport env).x0) } }
        some (c1, ctx.set_active true, true)
      else
        some (c, ctx, true)
    | .MouseUp _ => some (c, ctx, true)
    | _ => none
  else
    match event with
    | .MouseMove _ =>
      if c.scrollbars.hovered.is_hovered && !scrollbar_is_hovered then
        let c1 := { c with scrollbars := { c.scrollbars with hovered := .None } }
        some ((c1.reset_scrollbar_fade ctx env).1, (c1.reset_scrollbar_fade ctx env).2, false)
      else
        some (c, ctx, false)
    | .Timer id =>
      if id = c.scrollbars.timer_id then
        let c1 := { c with scrollbars := { c.scrollbars with timer_id := TimerToken.INVALID } }
        some (c1, ctx.request_anim_frame, false)
      else
        some (c, ctx, false)
    | _ => some (c, ctx, false)

/-- Embeds `ScrollComponent::check_and_scroll`. -/
def ScrollComponent.check_and_scroll (c : ScrollComponent) (ctx : Ctx) (event : Event)
    (env : Env) : ScrollComponent × Ctx :=
  if !ctx.handled then
    match event with
    | .Wheel wheel_delta =>
      if (c.scroll wheel_delta ctx.size).2 then
        (c.scroll wheel_delta ctx.size).1.reset_scrollbar_fade
          ctx.request_paint.set_handled env
      else
        ((c.scroll wheel_delta ctx.size).1, ctx)
    | _ => (c, ctx)
  else
    (c, ctx)

/-- Embeds `ScrollComponent::filter_lifecycle`. -/
def ScrollComponent.filter_lifecycle (c : ScrollComponent) (ctx : Ctx) (event : LifeCycle)
    (env : Env) : ScrollComponent × Ctx × Bool :=
  match event with
  | .AnimFrame interval =>
    if c.scrollbars.timer_id = TimerToken.INVALID then
      let diff := 2 * (interval : ℚ) * (1 / 10 ^ 9)
      let c1 := { c with scrollbars :=
          { c.scrollbars with opacity := c.scrollbars.opacity - diff } }
      let ctx1 := if c1.scrollbars.opacity > 0 then ctx.request_anim_frame else ctx
      (c1, ctx1, true)
    else
      (c, ctx, false)
  | .SizeChanged _ =>
    ((c.reset_scrollbar_fade ctx env).1, (c.reset_scrollbar_fade ctx env).2, true)
  | .Other => (c, ctx, false)

/-- Embeds `widget/scroll.rs` `ScrollbarStyle`. -/
inductive ScrollbarStyle where
  | Overlay
  | Inlay
deriving DecidableEq, Repr

/-- Embeds `widget/scroll.rs` `calc_track_width`: `bar_pad + bar_width + bar_pad`. -/
def calc_track_width (env : Env) : ℚ :=
  env.scrollbar_pad + env.scrollbar_width + env.scrollbar_pad

/-- Embeds `widget/scroll.rs` `ScrollbarsState` (the container variant adds the
two `*_required` flags). -/
structure WScrollbarsState where
  opacity : ℚ
  timer_id : TimerToken
  hovered : BarHoveredState
  held : BarHeldState
  vertical_required : Bool
  horizontal_required : Bool
deriving DecidableEq, Repr

/-- Embeds `ScrollbarsState::default` of the container variant. -/
def WScrollbarsState.default : WScrollbarsState :=
  { opacity := 0, timer_id := TimerToken.INVALID, hovered := .None,
    held := .None, vertical_required := false, horizontal_required := false }

/-- Embeds `ScrollbarsState::are_held` of the container variant. -/
def WScrollbarsState.are_held (s : WScrollbarsState) : Bool :=
  match s.held with
  | .None => false
  | _ => true

/-- Embeds `widget/scroll.rs` `Scroll` (the child widget itself is external; its
measured size is the `child_size` field). -/
structure Scroll where
  child_size : Size
  scroll_offset : Vec2
  scrollbar_style : ScrollbarStyle
  direction : ScrollDirection
  scrollbars : WScrollbarsState
deriving DecidableEq, Repr

/-- Embeds `Scroll::new` (modulo the external child). -/
def Scroll.new : Scroll :=
  { child_size := ⟨0, 0⟩, scroll_offset := ⟨0, 0⟩,
    scrollbar_style := .Overlay, direction := .All,
    scrollbars := WScrollbarsState.default }

/-- The clamped candidate offset computed inside `Scroll::scroll`. -/
def Scroll.clampOffset (s : Scroll) (delta : Vec2) (size : Size) : Vec2 :=
  let off := s.scroll_offset + delta
  ⟨max (min off.x (s.child_size.width - size.width)) 0,
   max (min off.y (s.child_size.height - size.height)) 0⟩

/-- Embeds `Scroll::scroll`. -/
def Scroll.scroll (s : Scroll) (delta : Vec2) (size : Size) : Scroll × Bool :=
  if (s.clampOffset delta size - s.scroll_offset).hypot2 > 1 / 10 ^ 12 then
    ({ s with scroll_offset := s.clampOffset delta size }, true)
  else
    (s, false)

/-- Embeds `Scroll::reset_scrollbar_fade`: opacity to the maximum, and only the
Overlay style arms a fade timer. -/
def Scroll.reset_scrollbar_fade (s : Scroll) (ctx : Ctx) (env : Env) : Scroll × Ctx :=
  let s1 := { s with scrollbars :=
      { s.scrollbars with opacity := env.scrollbar_max_opacity } }
  if s1.scrollbar_style = ScrollbarStyle.Overlay then
    let (tok, ctx1) := ctx.request_timer env.scrollbar_fade_delay
    ({ s1 with scrollbars := { s1.scrollbars with timer_id := tok } }, ctx1)
  else
    (s1, ctx)

/-- Embeds `Scroll::calc_vertical_bar_bounds` (the container variant's vertical
padding is `bar_pad + calc_track_width`). -/
def Scroll.calc_vertical_bar_bounds (s : Scroll) (viewport : Rect) (env : Env) : Rect :=
  let bar_width := env.scrollbar_width
  let bar_pad := env.scrollbar_pad
  let percent_visible := viewport.height / s.child_size.height
  let percent_scrolled := s.scroll_offset.y / (s.child_size.height - viewport.height)
  let length := ratCeil (percent_visible * viewport.height)
  let length := max length SCROLLBAR_MIN_SIZE
  let vertical_padding := bar_pad + calc_track_width env
  let top_y_offset := ratCeil ((viewport.height - length - vertical_padding) * percent_scrolled)
  let bottom_y_offset := top_y_offset + length
  let x0 := s.scroll_offset.x + viewport.width - bar_width - bar_pad
  let y0 := s.scroll_offset.y + top_y_offset + bar_pad
  let x1 := s.scroll_offset.x + viewport.width - bar_pad
  let y1 := s.scroll_offset.y + bottom_y_offset
  ⟨x0, y0, x1, y1⟩

/-- Embeds `Scroll::calc_horizontal_bar_bounds`. -/
def Scroll.calc_horizontal_bar_bounds (s : Scroll) (viewport : Rect) (env : Env) : Rect :=
  let bar_width := env.scrollbar_width
  let bar_pad := env.scrollbar_pad
  let percent_visible := viewport.width / s.child_size.width
  let percent_scrolled := s.scroll_offset.x / (s.child_size.width - viewport.width)
  let length := ratCeil (percent_visible * viewport.width)
  let length := max length SCROLLBAR_MIN_SIZE
  let horizontal_padding := bar_pad + calc_track_width env
  let left_x_offset := ratCeil ((viewport.width - length - horizontal_padding) * percent_scrolled)
  let right_x_offset := left_x_offset + length
  let x0 := s.scroll_offset.x + left_x_offset + bar_pad
  let y0 := s.scroll_offset.y + viewport.height - bar_width - bar_pad
  let x1 := s.scroll_offset.x + right_x_offset
  let y1 := s.scroll_offset.y + viewport.height - bar_pad
  ⟨x0, y0, x1, y1⟩

/-- Embeds `Scroll::calc_track_eat`: viewport space eaten by required Inlay tracks. -/
def Scroll.calc_track_eat (s : Scroll) (env : Env) : Size :=
  let track_width := calc_track_width env
  ⟨if s.scrollbars.vertical_required then track_width else 0,
   if s.scrollbars.horizontal_required then track_width else 0⟩

/-- Embeds `Scroll::point_hits_vertical_bar` (guarded by the `vertical_required`
flag rather than a size comparison). -/
def Scroll.point_hits_vertical_bar (s : Scroll) (viewport : Rect) (pos : Point)
    (env : Env) : Bool :=
  if s.scrollbars.vertical_required then
    let bounds := s.calc_vertical_bar_bounds viewport env
    let bounds := { bounds with x1 := s.scroll_offset.x + viewport.width }
    bounds.contains pos
  else
    false

/-- Embeds `Scroll::point_hits_horizontal_bar`. -/
def Scroll.point_hits_horizontal_bar (s : Scroll) (viewport : Rect) (pos : Point)
    (env : Env) : Bool :=
  if s.scrollbars.horizontal_required then
    let bounds := s.calc_horizontal_bar_bounds viewport env
    let bounds := { bounds with y1 := s.scroll_offset.y + viewport.height }
    bounds.contains pos
  else
    false

/-- Embeds `Scroll::event`.  `childH` abstracts the dispatch of the transformed
event to the external child widget (it can mutate only the context, e.g.
mark the event handled); result `none` is the `unreachable!()` panic. -/
def Scroll.event (s : Scroll) (ctx : Ctx) (event : Event) (env : Env)
    (childH : Ctx → Ctx) : Option (Scroll × Ctx) :=
  let size := ctx.size
  let viewport := Rect.from_origin_size size
  let paint_size :=
    match s.scrollbar_style with
    | .Overlay => size
    | .Inlay => size - s.calc_track_eat env
  let paint_viewport := Rect.from_origin_size paint_size
  let scrollbar_is_hovered :=
    match event with
    | .MouseMove e | .MouseUp e | .MouseDown e =>
      let offset_pos := e.pos + s.scroll_offset
      s.point_hits_vertical_bar viewport offset_pos env ||
        s.point_hits_horizontal_bar viewport offset_pos env
    | _ => false
  let step : Option (Scroll × Ctx) :=
    if s.scrollbars.are_held then
      match event with
      | .MouseMove e =>
        let s1 :=
          match s.scrollbars.held with
          | .Vertical offset =>
            let scale_y := paint_viewport.height / s.child_size.height
            let bounds := s.calc_vertical_bar_bounds viewport env
            let mouse_y := e.pos.y + s.scroll_offset.y
            let delta := mouse_y - bounds.y0 - offset
            (s.scroll ⟨0, ratCeil (delta / scale_y)⟩ paint_size).1
          | .Horizontal offset =>
            let scale_x := paint_viewport.width / s.child_size.width
            let bounds := s.calc_horizontal_bar_bounds viewport env
            let mouse_x := e.pos.x + s.scroll_offset.x
            let delta := mouse_x - bounds.x0 - offset
            (s.scroll ⟨ratCeil (delta / scale_x), 0⟩ paint_size).1
          | .None => s
        some (s1, ctx.request_paint)
      | .MouseUp _ =>
        let s1 := { s with scrollbars := { s.scrollbars with held := .None } }
        let ctx1 := ctx.set_active false
        if !scrollbar_is_hovered then
          let s2 := { s1 with scrollbars := { s1.scrollbars with hovered := .None } }
          some (s2.reset_scrollbar_fade ctx1 env)
        else
          some (s1, ctx1)
      | _ => some (s, ctx)
    else if scrollbar_is_hovered then
      match event with
      | .MouseMove e =>
        let offset_pos := e.pos + s.scroll_offset
        let s1 :=
          if s.point_hits_vertical_bar viewport offset_pos env then
            { s with scrollbars := { s.scrollbars with hovered := .Vertical } }
          else
            { s with scrollbars := { s.scrollbars with hovered := .Horizontal } }
        let s2 := { s1 with scrollbars := { s1.scrollbars with
            opacity := env.scrollbar_max_opacity, timer_id := TimerToken.INVALID } }
        some (s2, ctx.request_paint)
      | .MouseDown e =>
        let pos := e.pos + s.scroll_offset
        if s.point_hits_vertical_bar viewport pos env then
          let s1 := { s with scrollbars := { s.scrollbars with
              held := .Vertical (pos.y - (s.calc_vertical_bar_bounds viewport env).y0) } }
          some (s1, ctx.set_active true)
        else if s.point_hits_horizontal_bar viewport pos env then
          let s1 := { s with scrollbars := { s.scrollbars with
              held := .Horizontal (pos.x - (s.calc_horizontal_bar_bounds viewport env).x0) } }
          some (s1, ctx.set_active true)
        else
          some (s, ctx)
      | .MouseUp _ => some (s, ctx)
      | _ => none
    else
      let ctx1 := childH ctx
      match event with
      | .MouseMove _ =>
        if s.scrollbars.hovered.is_hovered && !scrollbar_is_hovered then
          let s1 := { s with scrollbars := { s.scrollbars with hovered := .None } }
          some (s1.reset_scrollbar_fade ctx1 env)
        else
          some (s, ctx1)
      | .SizeChanged _ => some (s.reset_scrollbar_fade ctx1 env)
      | .Timer id =>
        if id = s.scrollbars.timer_id then
          let s1 := { s with scrollbars := { s.scrollbars with
              timer_id := TimerToken.INVALID } }
          some (s1, ctx1.request_anim_frame)
        else
          some (s, ctx1)
      | _ => some (s, ctx1)
  step.map (fun r =>
    if !r.2.handled then
      match event with
      | .Wheel delta =>
        if (r.1.scroll delta paint_size).2 then
          (r.1.scroll delta paint_size).1.reset_scrollbar_fade
            r.2.request_paint.set_handled env
        else
          ((r.1.scroll delta paint_size).1, r.2)
      | _ => r
    else
      r)

/-- Embeds `Scroll::lifecycle` (the forwarding to the child's lifecycle cannot
touch this state and is omitted). -/
def Scroll.lifecycle (s : Scroll) (ctx : Ctx) (event : LifeCycle) : Scroll × Ctx :=
  match event with
  | .AnimFrame interval =>
    if s.scrollbars.timer_id = TimerToken.INVALID then
      let diff := 2 * (interval : ℚ) * (1 / 10 ^ 9)
      let s1 := { s with scrollbars :=
          { s.scrollbars with opacity := s.scrollbars.opacity - diff } }
      let ctx1 := if s1.scrollbars.opacity > 0 then ctx.request_anim_frame else ctx
      (s1, ctx1)
    else
      (s, ctx)
  | _ => (s, ctx)

/-- The tail of `Scroll::layout`: the child has already been measured (its
size is the `child_size` argument, supplied by the external child widget);
this computes the container's own size, re-clamps the offset, and derives
the two `*_required` flags including the corrective pass. -/
def Scroll.layout (s : Scroll) (bc : BoxConstraints) (child_measured : Size)
    (env : Env) : Scroll × Size :=
  let s1 := { s with child_size := child_measured }
  let self_size := bc.constrain s1.child_size
  let s2 := (s1.scroll ⟨0, 0⟩ self_size).1
  let vertical_required := decide (self_size.height < s2.child_size.height)
  let horizontal_required := decide (self_size.width < s2.child_size.width)
  let track_width := calc_track_width env
  let vertical_required :=
    if horizontal_required then
      decide (self_size.height - track_width < s2.child_size.height)
    else vertical_required
  let horizontal_required :=
    if vertical_required then
      decide (self_size.width - track_width < s2.child_size.width)
    else horizontal_required
  ({ s2 with scrollbars := { s2.scrollbars with
      vertical_required := vertical_required,
      horizontal_required := horizontal_required } }, self_size)

/-! ### Helper lemmas -/

/-- The per-axis clamp `v.min(a).max(0)` lands in `[0, max 0 a]`. -/
lemma clamp_axis_bounds (v a : ℚ) :
    0 ≤ max (min v a) 0 ∧ max (min v a) 0 ≤ max 0 a :=
  ⟨le_max_right _ _,
   max_le ((min_le_right _ _).trans (le_max_right _ _)) (le_max_left _ _)⟩

lemma Vec2.add_def (a b : Vec2) : a + b = ⟨a.x + b.x, a.y + b.y⟩ := rfl

lemma Vec2.sub_def (a b : Vec2) : a - b = ⟨a.x - b.x, a.y - b.y⟩ := rfl

lemma Point.add_vec2_def (p : Point) (v : Vec2) : p + v = ⟨p.x + v.x, p.y + v.y⟩ := rfl

lemma Size.sub_parts (a b : Size) : a - b = ⟨a.width - b.width, a.height - b.height⟩ := rfl

/-- When `ScrollComponent::scroll` reports no change, the state is the
unchanged input. -/
lemma ScrollComponent.scroll_unchanged_fst (c : ScrollComponent) (delta : Vec2) (size : Size) :
    (c.scroll delta size).2 = false → (c.scroll delta size).1 = c := by
  unfold ScrollComponent.scroll
  split
  · intro h; exact absurd h (by simp)
  · intro _; rfl

/-! ### Claims -/

/-- C1 (amended): if the pre-call `scroll_offset` already satisfies the
clamping invariant `0 ≤ offset.axis ≤ max 0 (content.axis − viewport.axis)`
on both axes, then after `scroll(delta, viewport)` the stored offset still
satisfies it, in both `ScrollComponent::scroll` and `Scroll::scroll`.
(Unrestricted, the claim fails: a pre-call offset out of range by at most
`1e-6` is left in place by the epsilon no-op test.) -/
theorem scroll_keeps_offset_in_range :
    (∀ (c : ScrollComponent) (delta : Vec2) (size : Size),
      0 ≤ c.scroll_offset.x →
      c.scroll_offset.x ≤ max 0 (c.content_size.width - size.width) →
      0 ≤ c.scroll_offset.y →
      c.scroll_offset.y ≤ max 0 (c.content_size.height - size.height) →
      0 ≤ (c.scroll delta size).1.scroll_offset.x ∧
      (c.scroll delta size).1.scroll_offset.x ≤
        max 0 (c.content_size.width - size.width) ∧
      0 ≤ (c.scroll delta size).1.scroll_offset.y ∧
      (c.scroll delta size).1.scroll_offset.y ≤
        max 0 (c.content_size.height - size.height)) ∧
    (∀ (s : Scroll) (delta : Vec2) (size : Size),
      0 ≤ s.scroll_offset.x →
      s.scroll_offset.x ≤ max 0 (s.child_size.width - size.width) →
      0 ≤ s.scroll_offset.y →
      s.scroll_offset.y ≤ max 0 (s.child_size.height - size.height) →
      0 ≤ (s.scroll delta size).1.scroll_offset.x ∧
      (s.scroll delta size).1.scroll_offset.x ≤
        max 0 (s.child_size.width - size.width) ∧
      0 ≤ (s.scroll delta size).1.scroll_offset.y ∧
      (s.scroll delta size).1.scroll_offset.y ≤
        max 0 (s.child_size.height - size.height)) := by
  constructor
  · intro c delta size h1 h2 h3 h4
    unfold ScrollComponent.scroll
    split
    · exact ⟨(clamp_axis_bounds _ _).1, (clamp_axis_bounds _ _).2,
        (clamp_axis_bounds _ _).1, (clamp_axis_bounds _ _).2⟩
    · exact ⟨h1, h2, h3, h4⟩
  · intro s delta size h1 h2 h3 h4
    unfold Scroll.scroll
    split
    · exact ⟨(clamp_axis_bounds _ _).1, (clamp_axis_bounds _ _).2,
        (clamp_axis_bounds _ _).1, (clamp_axis_bounds _ _).2⟩
    · exact ⟨h1, h2, h3, h4⟩

/-- A concrete in-range component: content `100×100`, offset `(0,0)`. -/
def c1InRange : ScrollComponent :=
  { content_size := ⟨100, 100⟩, scroll_offset := ⟨0, 0⟩,
    direction := .All, scrollbars := ScrollbarsState.default }

/-- Witness for C1: the in-range state scrolled by `(30, 500)` in a `50×50`
viewport stays in `[0, 50]` on both axes. -/
theorem scroll_keeps_offset_in_range_witness :
    (0 ≤ c1InRange.scroll_offset.x ∧
      c1InRange.scroll_offset.x ≤ max 0 (c1InRange.content_size.width - 50) ∧
      0 ≤ c1InRange.scroll_offset.y ∧
      c1InRange.scroll_offset.y ≤ max 0 (c1InRange.content_size.height - 50)) ∧
    (0 ≤ (c1InRange.scroll ⟨30, 500⟩ ⟨50, 50⟩).1.scroll_offset.x ∧
      (c1InRange.scroll ⟨30, 500⟩ ⟨50, 50⟩).1.scroll_offset.x ≤
        max 0 (c1InRange.content_size.width - 50) ∧
      0 ≤ (c1InRange.scroll ⟨30, 500⟩ ⟨50, 50⟩).1.scroll_offset.y ∧
      (c1InRange.scroll ⟨30, 500⟩ ⟨50, 50⟩).1.scroll_offset.y ≤
        max 0 (c1InRange.content_size.height - 50)) :=
  ⟨⟨by norm_num [c1InRange], by norm_num [c1InRange], by norm_num [c1InRange],
     by norm_num [c1InRange]⟩,
   scroll_keeps_offset_in_range.1 c1InRange ⟨30, 500⟩ ⟨50, 50⟩
     (by norm_num [c1InRange]) (by norm_num [c1InRange])
     (by norm_num [c1InRange]) (by norm_num [c1InRange])⟩

/-- A component whose offset is out of range by `1e-7` on the x axis. -/
def c1Beyond : ScrollComponent :=
  { content_size := ⟨100, 100⟩, scroll_offset := ⟨50 + 1 / 10 ^ 7, 0⟩,
    direction := .All, scrollbars := ScrollbarsState.default }

/-- Counterexample for C1 as stated: with content `100×100`, viewport
`50×50` and pre-call offset `(50 + 1e-7, 0)`, a zero-delta `scroll` leaves
the offset at `50 + 1e-7 > max 0 (100 − 50)`: the epsilon test suppresses
the update, so the post-call offset violates the claimed bound. -/
theorem scroll_offset_bound_counterexample :
    (c1Beyond.scroll ⟨0, 0⟩ ⟨50, 50⟩).1.scroll_offset.x >
      max 0 (c1Beyond.content_size.width - 50) := by
  norm_num [c1Beyond, ScrollComponent.scroll, ScrollComponent.clampOffset,
    Vec2.hypot2, Vec2.sub_def, Vec2.add_def]

/-- C5: `scroll()` returns `true` iff the squared distance between the
post-clamp offset and the pre-call offset exceeds `1e-12`; whenever that
squared distance is at most `(1e-6)²` the stored offset is left unchanged.
Holds for both `ScrollComponent::scroll` and `Scroll::scroll`. -/
theorem scroll_changed_iff_epsilon :
    (∀ (c : ScrollComponent) (delta : Vec2) (size : Size),
      ((c.scroll delta size).2 = true ↔
        (c.clampOffset delta size - c.scroll_offset).hypot2 > 1 / 10 ^ 12) ∧
      ((c.clampOffset delta size - c.scroll_offset).hypot2 ≤ (1 / 10 ^ 6) ^ 2 →
        (c.scroll delta size).1.scroll_offset = c.scroll_offset)) ∧
    (∀ (s : Scroll) (delta : Vec2) (size : Size),
      ((s.scroll delta size).2 = true ↔
        (s.clampOffset delta size - s.scroll_offset).hypot2 > 1 / 10 ^ 12) ∧
      ((s.clampOffset delta size - s.scroll_offset).hypot2 ≤ (1 / 10 ^ 6) ^ 2 →
        (s.scroll delta size).1.scroll_offset = s.scroll_offset)) := by
  have heps : ((1 : ℚ) / 10 ^ 6) ^ 2 = 1 / 10 ^ 12 := by norm_num
  constructor
  · intro c delta size
    unfold ScrollComponent.scroll
    split
    · next h => exact ⟨⟨fun _ => h, fun _ => rfl⟩, fun hle => absurd h (by rw [heps] at hle; exact not_lt.mpr hle)⟩
    · next h => exact ⟨⟨fun hf => absurd hf (by simp), fun hgt => absurd hgt h⟩, fun _ => rfl⟩
  · intro s delta size
    unfold Scroll.scroll
    split
    · next h => exact ⟨⟨fun _ => h, fun _ => rfl⟩, fun hle => absurd h (by rw [heps] at hle; exact not_lt.mpr hle)⟩
    · next h => exact ⟨⟨fun hf => absurd hf (by simp), fun hgt => absurd hgt h⟩, fun _ => rfl⟩

/-- An exact-fit component: content `400×300` equal to the viewport. -/
def c5ExactFit : ScrollComponent :=
  { content_size := ⟨400, 300⟩, scroll_offset := ⟨0, 0⟩,
    direction := .All, scrollbars := ScrollbarsState.default }

/-- Witness for C5: the exact-fit surface at offset `(0,0)` given a
wheel-sized delta `(0, 50)` clamps back to `(0,0)`; the squared distance is
`0 ≤ (1e-6)²` and the stored offset is unchanged. -/
theorem scroll_changed_iff_epsilon_witness :
    (c5ExactFit.clampOffset ⟨0, 50⟩ ⟨400, 300⟩ -
        c5ExactFit.scroll_offset).hypot2 ≤ (1 / 10 ^ 6) ^ 2 ∧
    (c5ExactFit.scroll ⟨0, 50⟩ ⟨400, 300⟩).1.scroll_offset =
      c5ExactFit.scroll_offset := by
  have hle : (c5ExactFit.clampOffset ⟨0, 50⟩ ⟨400, 300⟩ -
      c5ExactFit.scroll_offset).hypot2 ≤ ((1 : ℚ) / 10 ^ 6) ^ 2 := by
    norm_num [c5ExactFit, ScrollComponent.clampOffset, Vec2.hypot2,
      Vec2.sub_def, Vec2.add_def]
  exact ⟨hle, (scroll_changed_iff_epsilon.1 c5ExactFit ⟨0, 50⟩ ⟨400, 300⟩).2 hle⟩

/-- A concrete theme environment: bar width `10`, pad `2`, max opacity
`7/10`, fade delay `500`. -/
def env0 : Env :=
  { scrollbar_width := 10, scrollbar_pad := 2,
    scrollbar_max_opacity := 7 / 10, scrollbar_fade_delay := 500 }

/-- A concrete fresh context with a `400×300` viewport. -/
def ctx0 : Ctx :=
  { size := ⟨400, 300⟩, handled := false, paint_count := 0,
    anim_frame_count := 0, active := false, next_timer := 0 }

/-- C6 (amended): an animation-frame tick taken while the fade-timer id is
the invalid sentinel sets the stored opacity to exactly
`opacity − 2·interval·1e-9` — which may be negative, since no lower clamp
is applied — requests one further animation frame exactly when the new
opacity is positive, and once the new opacity is non-positive the fade
chain stops and `draw_bars` draws nothing (its early-out guard fires). -/
theorem anim_frame_opacity_unclamped :
    ∀ (c : ScrollComponent) (ctx : Ctx) (interval : ℕ) (env : Env),
      c.scrollbars.timer_id = TimerToken.INVALID →
      (c.filter_lifecycle ctx (.AnimFrame interval) env).1.scrollbars.opacity =
        c.scrollbars.opacity - 2 * (interval : ℚ) * (1 / 10 ^ 9) ∧
      (c.filter_lifecycle ctx (.AnimFrame interval) env).2.1.anim_frame_count =
        (if c.scrollbars.opacity - 2 * (interval : ℚ) * (1 / 10 ^ 9) > 0 then
          ctx.anim_frame_count + 1 else ctx.anim_frame_count) ∧
      ((c.filter_lifecycle ctx (.AnimFrame interval) env).1.scrollbars.opacity ≤ 0 →
        (c.filter_lifecycle ctx (.AnimFrame interval) env).1.draw_bars_skips = true ∧
        (c.filter_lifecycle ctx (.AnimFrame interval) env).2.1.anim_frame_count =
          ctx.anim_frame_count) := by
  intro c ctx interval env htimer
  have h1 : c.filter_lifecycle ctx (.AnimFrame interval) env =
      ({ c with scrollbars := { c.scrollbars with
          opacity := c.scrollbars.opacity - 2 * (interval : ℚ) * (1 / 10 ^ 9) } },
       (if c.scrollbars.opacity - 2 * (interval : ℚ) * (1 / 10 ^ 9) > 0 then
          ctx.request_anim_frame else ctx), true) := by
    simp [ScrollComponent.filter_lifecycle, htimer]
  rw [h1]
  refine ⟨rfl, ?_, ?_⟩
  · split
    · next h => rfl
    · next h => rfl
  · intro hle
    refine ⟨?_, ?_⟩
    · simpa [ScrollComponent.draw_bars_skips] using hle
    · have hnot : ¬ (c.scrollbars.opacity - 2 * (interval : ℚ) * (1 / 10 ^ 9) > 0) := by
        simpa using hle
      rw [if_neg hnot]

/-- Witness for C6 (amended): from the freshly-created component (opacity
`0`, timer invalid), one animation frame of one second (`10⁹` ns) drops the
stored opacity to `−2`, requests no further frame, and `draw_bars` skips. -/
theorem anim_frame_opacity_unclamped_witness :
    ScrollComponent.new.scrollbars.timer_id = TimerToken.INVALID ∧
    ((ScrollComponent.new.filter_lifecycle ctx0 (.AnimFrame (10 ^ 9))
        env0).1.scrollbars.opacity =
      ScrollComponent.new.scrollbars.opacity - 2 * ((10 ^ 9 : ℕ) : ℚ) * (1 / 10 ^ 9)) ∧
    ((ScrollComponent.new.filter_lifecycle ctx0 (.AnimFrame (10 ^ 9))
        env0).2.1.anim_frame_count =
      (if ScrollComponent.new.scrollbars.opacity - 2 * ((10 ^ 9 : ℕ) : ℚ) * (1 / 10 ^ 9) > 0
        then ctx0.anim_frame_count + 1 else ctx0.anim_frame_count)) :=
  ⟨rfl,
   (anim_frame_opacity_unclamped ScrollComponent.new ctx0 (10 ^ 9) env0 rfl).1,
   (anim_frame_opacity_unclamped ScrollComponent.new ctx0 (10 ^ 9) env0 rfl).2.1⟩

/-- Counterexample for C6 as stated: the stored opacity does become
negative.  From the freshly-created component (opacity `0`, fade-timer id
the invalid sentinel), a single animation-frame tick with a positive frame
interval of `10⁹` ns leaves `opacity = −2 < 0`. -/
theorem opacity_nonneg_counterexample :
    (ScrollComponent.new.filter_lifecycle ctx0 (.AnimFrame (10 ^ 9))
      env0).1.scrollbars.opacity < 0 := by
  norm_num [ScrollComponent.new, ScrollComponent.filter_lifecycle,
    ScrollbarsState.default, TimerToken.INVALID, ctx0, env0]

/-- C3: a Wheel event that is not already marked handled: if `scroll()`
applied to the wheel delta reports a change, `check_and_scroll` marks the
event handled, requests exactly one repaint, stores the scrolled offset,
and resets the scrollbar fade (opacity to the theme maximum and a freshly
armed — hence non-sentinel — fade timer); if `scroll()` reports no change,
the component state and the context are returned exactly unchanged. -/
theorem check_and_scroll_wheel :
    ∀ (c : ScrollComponent) (ctx : Ctx) (delta : Vec2) (env : Env),
      ctx.handled = false →
      ((c.scroll delta ctx.size).2 = true →
        (c.check_and_scroll ctx (.Wheel delta) env).2.handled = true ∧
        (c.check_and_scroll ctx (.Wheel delta) env).2.paint_count =
          ctx.paint_count + 1 ∧
        (c.check_and_scroll ctx (.Wheel delta) env).1.scroll_offset =
          (c.scroll delta ctx.size).1.scroll_offset ∧
        (c.check_and_scroll ctx (.Wheel delta) env).1.scrollbars.opacity =
          env.scrollbar_max_opacity ∧
        (c.check_and_scroll ctx (.Wheel delta) env).1.scrollbars.timer_id ≠
          TimerToken.INVALID) ∧
      ((c.scroll delta ctx.size).2 = false →
        c.check_and_scroll ctx (.Wheel delta) env = (c, ctx)) := by
  intro c ctx delta env hh
  unfold ScrollComponent.check_and_scroll
  rw [hh]
  constructor
  · intro hchanged
    simp only [Bool.not_false, if_true, hchanged, if_true]
    refine ⟨rfl, rfl, rfl, rfl, ?_⟩
    simp [ScrollComponent.reset_scrollbar_fade, Ctx.request_timer, TimerToken.INVALID]
  · intro hunchanged
    simp only [Bool.not_false, if_true, hunchanged, Bool.false_eq_true, if_false]
    rw [ScrollComponent.scroll_unchanged_fst c delta ctx.size hunchanged]

/-- A tall-content component: content `400×1000`, offset `(0,0)`. -/
def c3Tall : ScrollComponent :=
  { content_size := ⟨400, 1000⟩, scroll_offset := ⟨0, 0⟩, direction := .All,
    scrollbars := ScrollbarsState.default }

/-- Witness for C3: content `400×1000`, viewport `400×300`, offset `(0,0)`,
wheel delta `(0, 50)`: `scroll` reports a change, and `check_and_scroll`
marks the event handled with exactly one repaint. -/
theorem check_and_scroll_wheel_witness :
    ctx0.handled = false ∧
    (c3Tall.scroll ⟨0, 50⟩ ctx0.size).2 = true ∧
    (c3Tall.check_and_scroll ctx0 (.Wheel ⟨0, 50⟩) env0).2.handled = true ∧
    (c3Tall.check_and_scroll ctx0 (.Wheel ⟨0, 50⟩) env0).2.paint_count =
      ctx0.paint_count + 1 := by
  have hch : (c3Tall.scroll ⟨0, 50⟩ ctx0.size).2 = true := by
    norm_num [c3Tall, ScrollComponent.scroll, ScrollComponent.clampOffset,
      Vec2.hypot2, Vec2.sub_def, Vec2.add_def, ctx0]
  refine ⟨rfl, hch, ?_, ?_⟩
  · exact ((check_and_scroll_wheel c3Tall ctx0 ⟨0, 50⟩ env0 rfl).1 hch).1
  · exact ((check_and_scroll_wheel c3Tall ctx0 ⟨0, 50⟩ env0 rfl).1 hch).2.1

set_option maxHeartbeats 1000000 in
/-- C7 (amended): while a scrollbar is held, `ScrollComponent::filter_event`
treats every event other than pointer-move and pointer-up as a consumed
no-op (state and context exactly unchanged, return `true`); in
`Scroll::event` the same holds for every such event except a Wheel: the
trailing wheel handler still runs after the drag branch, so an unhandled
Wheel delivered during a drag is applied to `scroll()` and can change the
offset and scrollbar fade state. -/
theorem drag_other_events_noop :
    (∀ (c : ScrollComponent) (ctx : Ctx) (ev : Event) (env : Env),
      c.scrollbars.are_held = true →
      ev.isMouseMove = false → ev.isMouseUp = false →
      c.filter_event ctx ev env = some (c, ctx, true)) ∧
    (∀ (s : Scroll) (ctx : Ctx) (ev : Event) (env : Env) (childH : Ctx → Ctx),
      s.scrollbars.are_held = true →
      ev.isMouseMove = false → ev.isMouseUp = false → ev.isWheel = false →
      s.event ctx ev env childH = some (s, ctx)) := by
  constructor
  · intro c ctx ev env hheld hmm hmu
    cases ev with
    | MouseMove e => exact absurd hmm (by simp [Event.isMouseMove])
    | MouseUp e => exact absurd hmu (by simp [Event.isMouseUp])
    | MouseDown e => simp only [ScrollComponent.filter_event, hheld, if_true]
    | Wheel d => simp only [ScrollComponent.filter_event, hheld, if_true]
    | Timer id => simp only [ScrollComponent.filter_event, hheld, if_true]
    | SizeChanged sz => simp only [ScrollComponent.filter_event, hheld, if_true]
    | Other => simp only [ScrollComponent.filter_event, hheld, if_true]
  · intro s ctx ev env childH hheld hmm hmu hw
    cases ev with
    | MouseMove e => exact absurd hmm (by simp [Event.isMouseMove])
    | MouseUp e => exact absurd hmu (by simp [Event.isMouseUp])
    | Wheel d => exact absurd hw (by simp [Event.isWheel])
    | MouseDown e => simp [Scroll.event, hheld, if_true, ite_self, Option.map_some]
    | Timer id => simp [Scroll.event, hheld, if_true, ite_self, Option.map_some]
    | SizeChanged sz => simp [Scroll.event, hheld, if_true, ite_self, Option.map_some]
    | Other => simp [Scroll.event, hheld, if_true, ite_self, Option.map_some]

/-- A dragged `Scroll` container: vertical bar held, content `400×1000`. -/
def s7Dragging : Scroll :=
  { child_size := ⟨400, 1000⟩, scroll_offset := ⟨0, 0⟩,
    scrollbar_style := .Overlay, direction := .All,
    scrollbars := { opacity := 7 / 10,
                    timer_id := TimerToken.INVALID,
                    hovered := .Vertical,
                    held := .Vertical 0,
                    vertical_required := true,
                    horizontal_required := false } }

/-- A dragged component: vertical bar held, content `400×1000`. -/
def c7Dragging : ScrollComponent :=
  { content_size := ⟨400, 1000⟩, scroll_offset := ⟨0, 0⟩, direction := .All,
    scrollbars := { opacity := 7 / 10,
                    timer_id := TimerToken.INVALID,
                    hovered := .Vertical,
                    held := .Vertical 0 } }

/-- Witness for C7: a Timer event delivered to the component and to the
container while a drag is in progress is a consumed no-op. -/
theorem drag_other_events_noop_witness :
    c7Dragging.scrollbars.are_held = true ∧
    c7Dragging.filter_event ctx0 (.Timer 5) env0 = some (c7Dragging, ctx0, true) ∧
    s7Dragging.event ctx0 (.Timer 5) env0 id = some (s7Dragging, ctx0) :=
  ⟨by rfl,
   drag_other_events_noop.1 c7Dragging ctx0 (.Timer 5) env0 (by rfl) rfl rfl,
   drag_other_events_noop.2 s7Dragging ctx0 (.Timer 5) env0 id (by rfl) rfl rfl rfl⟩

/-- Counterexample for C7 as stated: an unhandled Wheel event of `(0, 50)`
delivered to the dragging container (content `400×1000`, viewport
`400×300`, offset `(0,0)`) is not a no-op — the trailing wheel handler in
`Scroll::event` scrolls the offset to `(0, 50)`. -/
theorem drag_wheel_not_noop_counterexample :
    s7Dragging.scrollbars.are_held = true ∧
    s7Dragging.scroll_offset = ⟨0, 0⟩ ∧
    (s7Dragging.event ctx0 (.Wheel ⟨0, 50⟩) env0 id).map
      (fun r => r.1.scroll_offset) = some ⟨0, 50⟩ := by
  refine ⟨by rfl, rfl, ?_⟩
  norm_num [s7Dragging, ctx0, env0, Scroll.event, Scroll.scroll, Scroll.clampOffset,
    Scroll.reset_scrollbar_fade, WScrollbarsState.are_held, Vec2.hypot2,
    Vec2.sub_def, Vec2.add_def, Ctx.request_paint, Ctx.set_handled,
    Ctx.request_timer]

set_option maxHeartbeats 1000000 in
/-- C9: the `unreachable!()` branch of the hovered-but-not-dragging state is
never executed: the hovered branch is only entered when
`scrollbar_is_hovered` is true, which forces the event to be a mouse-move,
mouse-down or mouse-up, all of which have explicit arms.  Hence
`ScrollComponent::filter_event` and `Scroll::event` are total (never return
the panic marker `none`) over all inputs. -/
theorem filter_event_total :
    (∀ (c : ScrollComponent) (ctx : Ctx) (ev : Event) (env : Env),
      (c.filter_event ctx ev env).isSome = true) ∧
    (∀ (s : Scroll) (ctx : Ctx) (ev : Event) (env : Env) (childH : Ctx → Ctx),
      (s.event ctx ev env childH).isSome = true) := by
  constructor
  · intro c ctx ev env
    cases ev <;> simp only [ScrollComponent.filter_event] <;>
      (repeat' split) <;> simp_all
  · intro s ctx ev env childH
    cases ev <;> simp only [Scroll.event, Option.isSome_map] <;>
      (repeat' split) <;> simp_all

/-- A `100×100`-viewport context. -/
def ctx100 : Ctx :=
  { size := ⟨100, 100⟩, handled := false, paint_count := 0,
    anim_frame_count := 0, active := false, next_timer := 0 }

/-- C8: the vertical-bar hit-test succeeds exactly when the bar is required
(viewport shorter than content) and the pointer lies in the drawn bar
rectangle with its cross-axis far bound (`x1`) stretched to the viewport's
right edge, the along-track (`y`) bounds staying exactly those of the drawn
bar; and a pointer-down whose content-space position passes that hit-test
while nothing is held initiates a drag with `held = Vertical(pos.y − y0)`,
`y0` the drawn bar's top edge. -/
theorem vertical_bar_hit_and_grab :
    (∀ (c : ScrollComponent) (viewport : Rect) (pos : Point) (env : Env),
      c.point_hits_vertical_bar viewport pos env =
        (decide (viewport.height < c.content_size.height) &&
          Rect.contains
            ⟨(c.calc_vertical_bar_bounds viewport env).x0,
             (c.calc_vertical_bar_bounds viewport env).y0,
             c.scroll_offset.x + viewport.width,
             (c.calc_vertical_bar_bounds viewport env).y1⟩ pos)) ∧
    (∀ (c : ScrollComponent) (ctx : Ctx) (e : MouseEvent) (env : Env),
      c.scrollbars.held = BarHeldState.None →
      c.point_hits_vertical_bar (Rect.from_origin_size ctx.size)
        (e.pos + c.scroll_offset) env = true →
      c.filter_event ctx (.MouseDown e) env =
        some ({ c with scrollbars := { c.scrollbars with
            held := .Vertical ((e.pos + c.scroll_offset).y -
              (c.calc_vertical_bar_bounds (Rect.from_origin_size ctx.size) env).y0) } },
          ctx.set_active true, true)) := by
  constructor
  · intro c viewport pos env
    unfold ScrollComponent.point_hits_vertical_bar
    split
    · next h => simp [h]
    · next h => simp [h]
  · intro c ctx e env hheld hhit
    simp only [ScrollComponent.filter_event, ScrollbarsState.are_held, hheld, hhit]
    simp

/-- A component with tall content `100×400` and no interaction state. -/
def c8Comp : ScrollComponent :=
  { content_size := ⟨100, 400⟩, scroll_offset := ⟨0, 0⟩, direction := .All,
    scrollbars := ScrollbarsState.default }

/-- Witness for C8: in a `100×100` viewport over `100×400` content the
drawn vertical bar is `[88, 98) × [2, 45)`; the pointer at `(99, 10)` lies
outside the drawn rectangle but inside the stretched hitbox, the hit-test
succeeds, and a pointer-down there starts a vertical drag with grab offset
`10 − 2 = 8`. -/
theorem vertical_bar_hit_and_grab_witness :
    c8Comp.scrollbars.held = BarHeldState.None ∧
    (c8Comp.calc_vertical_bar_bounds (Rect.from_origin_size ctx100.size) env0).x1 ≤
      ((⟨⟨99, 10⟩⟩ : MouseEvent).pos + c8Comp.scroll_offset).x ∧
    c8Comp.point_hits_vertical_bar (Rect.from_origin_size ctx100.size)
      ((⟨⟨99, 10⟩⟩ : MouseEvent).pos + c8Comp.scroll_offset) env0 = true ∧
    c8Comp.filter_event ctx100 (.MouseDown ⟨⟨99, 10⟩⟩) env0 =
      some ({ c8Comp with scrollbars := { c8Comp.scrollbars with
          held := .Vertical (((⟨⟨99, 10⟩⟩ : MouseEvent).pos + c8Comp.scroll_offset).y -
            (c8Comp.calc_vertical_bar_bounds (Rect.from_origin_size ctx100.size) env0).y0) } },
        ctx100.set_active true, true) := by
  have hx1 : (c8Comp.calc_vertical_bar_bounds (Rect.from_origin_size ctx100.size)
      env0).x1 ≤ ((⟨⟨99, 10⟩⟩ : MouseEvent).pos + c8Comp.scroll_offset).x := by
    norm_num [c8Comp, ctx100, env0, ScrollComponent.calc_vertical_bar_bounds,
      Rect.from_origin_size, Rect.width, Rect.height, ratCeil,
      SCROLLBAR_MIN_SIZE, Point.add_vec2_def]
  have hhit : c8Comp.point_hits_vertical_bar (Rect.from_origin_size ctx100.size)
      ((⟨⟨99, 10⟩⟩ : MouseEvent).pos + c8Comp.scroll_offset) env0 = true := by
    norm_num [c8Comp, ctx100, env0, ScrollComponent.point_hits_vertical_bar,
      ScrollComponent.calc_vertical_bar_bounds, Rect.contains,
      Rect.from_origin_size, Rect.width, Rect.height, ratCeil,
      SCROLLBAR_MIN_SIZE, Point.add_vec2_def, max_def, min_def]
  exact ⟨rfl, hx1, hhit,
    vertical_bar_hit_and_grab.2 c8Comp ctx100 ⟨⟨99, 10⟩⟩ env0 rfl hhit⟩

/-- C10: when a pointer position passes both the stretched vertical-bar and
the stretched horizontal-bar hit-tests while nothing is held, the vertical
bar wins: a mouse-move marks `hovered = Vertical` and a mouse-down sets
`held = Vertical(...)` — the vertical hit-test is checked first. -/
theorem corner_hover_vertical_wins :
    ∀ (c : ScrollComponent) (ctx : Ctx) (e : MouseEvent) (env : Env),
      c.scrollbars.held = BarHeldState.None →
      c.point_hits_vertical_bar (Rect.from_origin_size ctx.size)
        (e.pos + c.scroll_offset) env = true →
      c.point_hits_horizontal_bar (Rect.from_origin_size ctx.size)
        (e.pos + c.scroll_offset) env = true →
      ((c.filter_event ctx (.MouseMove e) env).map
          (fun r => r.1.scrollbars.hovered) = some BarHoveredState.Vertical) ∧
      ((c.filter_event ctx (.MouseDown e) env).map
          (fun r => r.1.scrollbars.held) =
        some (BarHeldState.Vertical ((e.pos + c.scroll_offset).y -
          (c.calc_vertical_bar_bounds (Rect.from_origin_size ctx.size) env).y0))) := by
  intro c ctx e env hheld hv hh
  constructor
  · simp only [ScrollComponent.filter_event, ScrollbarsState.are_held, hheld, hv, hh]
    simp
  · simp only [ScrollComponent.filter_event, ScrollbarsState.are_held, hheld, hv, hh]
    simp

/-- A component scrolled past the clamped maximum so that the two stretched
hitboxes overlap in the corner: content `1000×1000`, offset
`(39600/41, 39600/41)`. -/
def c10Comp : ScrollComponent :=
  { content_size := ⟨1000, 1000⟩, scroll_offset := ⟨39600 / 41, 39600 / 41⟩,
    direction := .All, scrollbars := ScrollbarsState.default }

/-- Witness for C10: in a `100×100` viewport with offset `(39600/41,
39600/41)` over `1000×1000` content, the pointer at widget position
`(177/2, 177/2)` is inside both stretched hitboxes; the move marks the
vertical bar hovered and the down grabs the vertical bar. -/
theorem corner_hover_vertical_wins_witness :
    c10Comp.scrollbars.held = BarHeldState.None ∧
    c10Comp.point_hits_vertical_bar (Rect.from_origin_size ctx100.size)
      ((⟨⟨177 / 2, 177 / 2⟩⟩ : MouseEvent).pos + c10Comp.scroll_offset) env0 = true ∧
    c10Comp.point_hits_horizontal_bar (Rect.from_origin_size ctx100.size)
      ((⟨⟨177 / 2, 177 / 2⟩⟩ : MouseEvent).pos + c10Comp.scroll_offset) env0 = true ∧
    (c10Comp.filter_event ctx100 (.MouseMove ⟨⟨177 / 2, 177 / 2⟩⟩) env0).map
      (fun r => r.1.scrollbars.hovered) = some BarHoveredState.Vertical ∧
    (c10Comp.filter_event ctx100 (.MouseDown ⟨⟨177 / 2, 177 / 2⟩⟩) env0).map
      (fun r => r.1.scrollbars.held) =
      some (BarHeldState.Vertical (((⟨⟨177 / 2, 177 / 2⟩⟩ : MouseEvent).pos +
          c10Comp.scroll_offset).y -
        (c10Comp.calc_vertical_bar_bounds (Rect.from_origin_size ctx100.size)
          env0).y0)) := by
  have hv : c10Comp.point_hits_vertical_bar (Rect.from_origin_size ctx100.size)
      ((⟨⟨177 / 2, 177 / 2⟩⟩ : MouseEvent).pos + c10Comp.scroll_offset) env0 = true := by
    norm_num [c10Comp, ctx100, env0, ScrollComponent.point_hits_vertical_bar,
      ScrollComponent.calc_vertical_bar_bounds, Rect.contains,
      Rect.from_origin_size, Rect.width, Rect.height, ratCeil,
      SCROLLBAR_MIN_SIZE, Point.add_vec2_def, max_def, min_def]
  have hh : c10Comp.point_hits_horizontal_bar (Rect.from_origin_size ctx100.size)
      ((⟨⟨177 / 2, 177 / 2⟩⟩ : MouseEvent).pos + c10Comp.scroll_offset) env0 = true := by
    norm_num [c10Comp, ctx100, env0, ScrollComponent.point_hits_horizontal_bar,
      ScrollComponent.calc_horizontal_bar_bounds, Rect.contains,
      Rect.from_origin_size, Rect.width, Rect.height, ratCeil,
      SCROLLBAR_MIN_SIZE, Point.add_vec2_def, max_def, min_def]
  exact ⟨rfl, hv, hh,
    (corner_hover_vertical_wins c10Comp ctx100 ⟨⟨177 / 2, 177 / 2⟩⟩ env0 rfl hv hh).1,
    (corner_hover_vertical_wins c10Comp ctx100 ⟨⟨177 / 2, 177 / 2⟩⟩ env0 rfl hv hh).2⟩

/-- Embeds `Scroll::scroll` never changes the measured child size. -/
lemma Scroll.scroll_fst_child_size (s : Scroll) (delta : Vec2) (size : Size) :
    (s.scroll delta size).1.child_size = s.child_size := by
  unfold Scroll.scroll; split <;> rfl

/-- Embeds `Scroll::scroll` never changes the scrollbar state. -/
lemma Scroll.scroll_fst_scrollbars (s : Scroll) (delta : Vec2) (size : Size) :
    (s.scroll delta size).1.scrollbars = s.scrollbars := by
  unfold Scroll.scroll; split <;> rfl

/-- C2 (amended): if the content fits in the viewport with the whole track
width to spare (`content.width + track_width ≤ viewport.width`, with the
track width non-negative), then after layout `horizontal_required` is false
and the horizontal hit-test returns false for every pointer position.
(With only `content.width ≤ viewport.width`, the claim fails: when the
vertical bar is required, the corrective pass re-tests the horizontal axis
against `viewport.width − track_width` and can turn the flag on.) -/
theorem no_horizontal_bar_when_fits_with_track :
    ∀ (s : Scroll) (bc : BoxConstraints) (child : Size) (env : Env)
      (viewport : Rect) (pos : Point),
      0 ≤ calc_track_width env →
      child.width + calc_track_width env ≤ (bc.constrain child).width →
      (s.layout bc child env).1.scrollbars.horizontal_required = false ∧
      (s.layout bc child env).1.point_hits_horizontal_bar viewport pos env = false := by
  intro s bc child env viewport pos ht hw
  have hfit : ¬ ((bc.constrain child).width < child.width) :=
    not_lt.mpr (le_trans (le_add_of_nonneg_right ht) hw)
  have hfit2 : ¬ ((bc.constrain child).width - calc_track_width env < child.width) :=
    not_lt.mpr (by linarith)
  have hflag : (s.layout bc child env).1.scrollbars.horizontal_required = false := by
    simp only [Scroll.layout, Scroll.scroll_fst_child_size, Scroll.scroll_fst_scrollbars]
    simp [hfit, hfit2]
  refine ⟨hflag, ?_⟩
  simp [Scroll.point_hits_horizontal_bar, hflag]

/-- Tight constraints forcing the container to be exactly `100×100`. -/
def bcTight : BoxConstraints := ⟨⟨100, 100⟩, ⟨100, 100⟩⟩

/-- Witness for C2 (amended): content `80×200` in a `100×100` viewport
leaves the whole track width (`14`) to spare on the x axis, so after layout
`horizontal_required` is false and the horizontal hit-test misses at a
pointer position that would be inside a horizontal bar if one existed. -/
theorem no_horizontal_bar_when_fits_with_track_witness :
    0 ≤ calc_track_width env0 ∧
    (Size.mk 80 200).width + calc_track_width env0 ≤
      (bcTight.constrain ⟨80, 200⟩).width ∧
    (Scroll.new.layout bcTight ⟨80, 200⟩ env0).1.scrollbars.horizontal_required =
      false ∧
    (Scroll.new.layout bcTight ⟨80, 200⟩ env0).1.point_hits_horizontal_bar
      (Rect.from_origin_size ⟨100, 100⟩) ⟨50, 95⟩ env0 = false := by
  have h1 : 0 ≤ calc_track_width env0 := by norm_num [calc_track_width, env0]
  have h2 : (Size.mk 80 200).width + calc_track_width env0 ≤
      (bcTight.constrain ⟨80, 200⟩).width := by
    norm_num [calc_track_width, env0, bcTight, BoxConstraints.constrain,
      max_def, min_def]
  exact ⟨h1, h2,
    (no_horizontal_bar_when_fits_with_track Scroll.new bcTight ⟨80, 200⟩ env0
      (Rect.from_origin_size ⟨100, 100⟩) ⟨50, 95⟩ h1 h2).1,
    (no_horizontal_bar_when_fits_with_track Scroll.new bcTight ⟨80, 200⟩ env0
      (Rect.from_origin_size ⟨100, 100⟩) ⟨50, 95⟩ h1 h2).2⟩

/-- Counterexample for C2 as stated: content `95×200` in a `100×100`
viewport has `content.width = 95 ≤ 100 = viewport.width`, yet after layout
`horizontal_required` is true (the vertical bar is required and the
corrective pass re-tests against `100 − 14 = 86 < 95`), and the horizontal
hit-test succeeds at the pointer position `(50, 95)`. -/
theorem horizontal_bar_when_fits_counterexample :
    (Scroll.new.layout bcTight ⟨95, 200⟩ env0).2.width = 100 ∧
    ((95 : ℚ) ≤ 100) ∧
    (Scroll.new.layout bcTight ⟨95, 200⟩ env0).1.scrollbars.horizontal_required = true ∧
    (Scroll.new.layout bcTight ⟨95, 200⟩ env0).1.point_hits_horizontal_bar
      (Rect.from_origin_size ⟨100, 100⟩) ⟨50, 95⟩ env0 = true := by
  have hceil : (⌈(2000 : ℚ) / 19⌉ : ℤ) = 106 := by
    rw [Int.ceil_eq_iff]
    norm_num
  refine ⟨?_, by norm_num, ?_, ?_⟩
  · norm_num [Scroll.new, Scroll.layout, BoxConstraints.constrain, bcTight,
      WScrollbarsState.default, Scroll.scroll, Scroll.clampOffset, Vec2.hypot2,
      Vec2.sub_def, Vec2.add_def, max_def, min_def]
  · norm_num [Scroll.new, Scroll.layout, BoxConstraints.constrain, bcTight,
      WScrollbarsState.default, Scroll.scroll, Scroll.clampOffset, Vec2.hypot2,
      Vec2.sub_def, Vec2.add_def, calc_track_width, env0, max_def, min_def]
  · norm_num [Scroll.new, Scroll.layout, BoxConstraints.constrain, bcTight,
      WScrollbarsState.default, Scroll.scroll, Scroll.clampOffset, Vec2.hypot2,
      Vec2.sub_def, Vec2.add_def, calc_track_width, env0, max_def, min_def,
      Scroll.point_hits_horizontal_bar, Scroll.calc_horizontal_bar_bounds,
      Rect.contains, Rect.from_origin_size, Rect.width, Rect.height, ratCeil,
      SCROLLBAR_MIN_SIZE, hceil]

/-- C4 (amended): the corrective pass over the `*_required` flags is
performed unconditionally during layout, for Overlay exactly as for Inlay:
for every scroll state and style, `vertical_required` is the raw comparison
unless the raw horizontal test fires (then it is re-tested against the
viewport reduced by the track width) and `horizontal_required` is the raw
comparison unless the corrected vertical flag is set (then it is re-tested
against the reduced viewport); in particular the flags never depend on the
scrollbar style. -/
theorem layout_corrective_pass_unconditional :
    ∀ (s : Scroll) (bc : BoxConstraints) (child : Size) (env : Env),
      ((s.layout bc child env).1.scrollbars.vertical_required =
        (if (bc.constrain child).width < child.width then
          decide ((bc.constrain child).height - calc_track_width env < child.height)
        else decide ((bc.constrain child).height < child.height)) ∧
      (s.layout bc child env).1.scrollbars.horizontal_required =
        (if (if (bc.constrain child).width < child.width then
              decide ((bc.constrain child).height - calc_track_width env < child.height)
            else decide ((bc.constrain child).height < child.height)) = true then
          decide ((bc.constrain child).width - calc_track_width env < child.width)
        else decide ((bc.constrain child).width < child.width))) ∧
      ((s.layout bc child env).1.scrollbars.vertical_required =
        (({ s with scrollbar_style := ScrollbarStyle.Inlay }).layout bc child
          env).1.scrollbars.vertical_required ∧
      (s.layout bc child env).1.scrollbars.horizontal_required =
        (({ s with scrollbar_style := ScrollbarStyle.Inlay }).layout bc child
          env).1.scrollbars.horizontal_required) := by
  intro s bc child env
  refine ⟨⟨?_, ?_⟩, ?_, ?_⟩ <;>
    simp only [Scroll.layout, Scroll.scroll_fst_child_size,
      Scroll.scroll_fst_scrollbars] <;>
    split_ifs <;> simp_all

/-- Counterexample for C4 as stated: an Overlay-style container with
content `90×200` under tight `100×100` constraints: the raw comparison
`viewport.width < content.width` is `100 < 90 = false`, yet after layout
`horizontal_required = true`, because the corrective pass also runs for the
Overlay style (`100 − 14 = 86 < 90`). -/
theorem overlay_corrective_pass_counterexample :
    Scroll.new.scrollbar_style = ScrollbarStyle.Overlay ∧
    (Scroll.new.layout bcTight ⟨90, 200⟩ env0).2.width = 100 ∧
    ¬ ((100 : ℚ) < 90) ∧
    (Scroll.new.layout bcTight ⟨90, 200⟩ env0).1.scrollbars.horizontal_required =
      true := by
  refine ⟨rfl, ?_, by norm_num, ?_⟩
  · norm_num [Scroll.new, Scroll.layout, BoxConstraints.constrain, bcTight,
      WScrollbarsState.default, Scroll.scroll, Scroll.clampOffset, Vec2.hypot2,
      Vec2.sub_def, Vec2.add_def, max_def, min_def]
  · norm_num [Scroll.new, Scroll.layout, BoxConstraints.constrain, bcTight,
      WScrollbarsState.default, Scroll.scroll, Scroll.clampOffset, Vec2.hypot2,
      Vec2.sub_def, Vec2.add_def, calc_track_width, env0, max_def, min_def]

end Druid
